import Mathlib

/-!
Verification of the Nodel value/tree core and its filesystem data source.

The repository ships the Python-extension test-suite; the C++ core it
exercises is not part of the source tree at hand, so the definitions below
are modelled from the specification document (each doc comment names the
part that is modelled) and are checked against the behaviour the tests
pin down.
-/

namespace Nodel

/-- Modelled from the spec: §7 error taxonomy of the missing C++ core —
`TypeError`, `BindingError`, `NotFoundError`, `PermissionError`,
`TypeConversionError`, plus the division/index/key failures the Python
layer surfaces. -/
inductive NodelError where
  | typeError
  | bindingError
  | notFoundError
  | permissionError
  | typeConversionError
  | zeroDivisionError
  | keyNotFound
  | indexError
deriving DecidableEq

/-- Modelled from the spec: §3 data model of the missing C++ core — the
single `Object` entity, a tagged union over
`Nil | Bool | Int | Float | String | List | Map | Native`.  A `Map` is an
insertion-ordered association list with string keys (the keys the tests
exercise); a `Native` payload is opaque and is represented by an identity
token (the host object's identity). Floats are represented by rationals:
the claims under study only use exactly-representable values. -/
inductive Object where
  | nil
  | bool (b : Bool)
  | int (i : Int)
  | float (q : ℚ)
  | str (s : String)
  | list (xs : List Object)
  | map (entries : List (String × Object))
  | native (id : Nat)

/-- Modelled from the spec: §4.1 — variant predicate `is_nil`. -/
def is_nil : Object → Bool
  | .nil => true
  | _ => false

/-- Modelled from the spec: §4.1 — variant predicate `is_bool`. -/
def is_bool : Object → Bool
  | .bool _ => true
  | _ => false

/-- Modelled from the spec: §4.1 — variant predicate `is_int`. -/
def is_int : Object → Bool
  | .int _ => true
  | _ => false

/-- Modelled from the spec: §4.1 — variant predicate `is_float`. -/
def is_float : Object → Bool
  | .float _ => true
  | _ => false

/-- Modelled from the spec: §4.1 — variant predicate `is_str`. -/
def is_str : Object → Bool
  | .str _ => true
  | _ => false

/-- Modelled from the spec: §4.1 — variant predicate `is_list`. -/
def is_list : Object → Bool
  | .list _ => true
  | _ => false

/-- Modelled from the spec: §4.1 — variant predicate `is_map`. -/
def is_map : Object → Bool
  | .map _ => true
  | _ => false

/-- Modelled from the spec: §4.1 — variant predicate `is_native`. -/
def is_native : Object → Bool
  | .native _ => true
  | _ => false

/-- The number of the eight variant predicates that hold of `o`. -/
def variantCount (o : Object) : Nat :=
  [is_nil o, is_bool o, is_int o, is_float o, is_str o,
   is_list o, is_map o, is_native o].count true

/-- C4: every constructible Object satisfies exactly one of the eight
variant predicates `is_nil/is_bool/is_int/is_float/is_str/is_list/is_map/
is_native`; they are mutually exclusive and jointly exhaustive over all
constructions. -/
theorem variant_predicates_exactly_one (o : Object) : variantCount o = 1 := by
  cases o <;> rfl

/-! ## Slicing (§4.1: Python-style start:stop:step semantics) -/

/-- A Python-style slice: each of start/stop/step may be absent. -/
structure Slice where
  start : Option Int
  stop : Option Int
  step : Option Int

/-- The effective step of a slice: an absent step means `1`. -/
def sliceStep (sl : Slice) : Int := sl.step.getD 1

/-- Modelled from the spec: §4.1 slice normalization of the missing C++
core, following CPython's adjustment of the start bound against length
`n` for step `s`: negative indices count from the end, and out-of-range
bounds clamp (to `-1`/`n` as exclusive sentinels for the direction of
travel). -/
def adjStart (n : Nat) (s : Int) : Option Int → Int
  | none => if s > 0 then 0 else (n : Int) - 1
  | some i =>
    let i := if i < 0 then i + n else i
    if i < 0 then (if s < 0 then -1 else 0)
    else if i ≥ n then (if s > 0 then n else (n : Int) - 1)
    else i

/-- Modelled from the spec: §4.1 slice normalization of the stop bound
(see `adjStart`). -/
def adjStop (n : Nat) (s : Int) : Option Int → Int
  | none => if s > 0 then n else -1
  | some i =>
    let i := if i < 0 then i + n else i
    if i < 0 then (if s < 0 then -1 else 0)
    else if i ≥ n then (if s > 0 then n else (n : Int) - 1)
    else i

/-- Number of positions selected by an adjusted slice `a:b:s`; `0` when
the resulting range is empty (spec §4.1: an empty range is a value, not
an error). -/
def sliceLen (a b s : Int) : Nat :=
  if s > 0 then
    if a < b then ((b - a - 1) / s + 1).toNat else 0
  else if s < 0 then
    if b < a then ((a - b - 1) / (-s) + 1).toNat else 0
  else 0

/-- The list of positions a slice selects in a sequence of length `n`,
in traversal order (descending for a negative step). -/
def sliceIndices (n : Nat) (sl : Slice) : List Nat :=
  let s := sliceStep sl
  let a := adjStart n s sl.start
  let b := adjStop n s sl.stop
  (List.range (sliceLen a b s)).map (fun j => (a + j * s).toNat)

/-- Modelled from the spec: §4.1 slice read of the missing C++ core —
the elements at the selected positions, in traversal order. Total: every
slice yields a (possibly empty) sequence, never an error. -/
def sliceRead {α : Type} (xs : List α) (sl : Slice) : List α :=
  (sliceIndices xs.length sl).filterMap (fun i => xs[i]?)

/-- Modelled from the spec: §4.1 stepped slice-assignment of the missing
C++ core, as pinned down by the test-suite: position `idxs[j]` takes
replacement element `r[j]`; selected positions beyond the replacement's
length are deleted; other positions are kept. -/
def spliceStepped {α : Type} (xs : List α) (idxs : List Nat) (r : List α) : List α :=
  (List.range xs.length).filterMap fun p =>
    match idxs.findIdx? (· == p) with
    | none => xs[p]?
    | some j => r[j]?

/-- Modelled from the spec: §4.1 slice write of the missing C++ core —
a unit step splices the replacement in place of the contiguous range
(the replacement may have any length); any other step uses the stepped
(`spliceStepped`) semantics. -/
def sliceWrite {α : Type} (xs : List α) (sl : Slice) (r : List α) : List α :=
  let s := sliceStep sl
  if s == 1 then
    let a := (adjStart xs.length 1 sl.start).toNat
    let b := (adjStop xs.length 1 sl.stop).toNat
    xs.take a ++ r ++ xs.drop (max a b)
  else
    spliceStepped xs (sliceIndices xs.length sl) r

/-- Modelled from the spec: §4.1 — slice read on an Object; defined for
the String and List variants, `TypeError` otherwise. -/
def objGetSlice (o : Object) (sl : Slice) : Except NodelError Object :=
  match o with
  | .list xs => .ok (.list (sliceRead xs sl))
  | .str s => .ok (.str (String.mk (sliceRead s.data sl)))
  | _ => .error .typeError

/-- Modelled from the spec: §4.1 — slice assignment on an Object; defined
for the String and List variants, `TypeError` otherwise. -/
def objSetSlice (o : Object) (sl : Slice) (v : Object) : Except NodelError Object :=
  match o, v with
  | .str s, .str r => .ok (.str (String.mk (sliceWrite s.data sl r.data)))
  | .list xs, .list rs => .ok (.list (sliceWrite xs sl rs))
  | _, _ => .error .typeError

/-- Any element produced by a slice read occurs in the original list:
slice reads only fetch in-range positions. -/
theorem sliceRead_mem {α : Type} {xs : List α} {sl : Slice} {y : α}
    (h : y ∈ sliceRead xs sl) : y ∈ xs := by
  rw [sliceRead, List.mem_filterMap] at h
  obtain ⟨i, _, hi⟩ := h
  exact List.getElem?_mem hi

/-- C3: on the String Object `"0123456789"`, `[:3] = "012"`,
`[::-1] = "9876543210"`, `[:-2] = "01234567"`; slice assignment
`[::2] = "xx"` yields `"x1x3579"` (the first selected positions take the
replacement characters, the remaining selected positions are deleted),
and `[::3] = ""` yields `"124578"` (the stepped subsequence is deleted). -/
theorem string_slice_laws :
    objGetSlice (.str "0123456789") ⟨none, some 3, none⟩ = .ok (.str "012") ∧
    objGetSlice (.str "0123456789") ⟨none, none, some (-1)⟩ = .ok (.str "9876543210") ∧
    objGetSlice (.str "0123456789") ⟨none, some (-2), none⟩ = .ok (.str "01234567") ∧
    objSetSlice (.str "0123456789") ⟨none, none, some 2⟩ (.str "xx") = .ok (.str "x1x3579") ∧
    objSetSlice (.str "0123456789") ⟨none, none, some 3⟩ (.str "") = .ok (.str "124578") :=
  ⟨rfl, rfl, rfl, rfl, rfl⟩

/-- C8: a slice read on a List Object never raises — for every list and
every start/stop/step it returns `ok` with a sub-selection of the list —
and on `[1,2,3]`: `[:-1] = [1,2]`, `[-1:] = [3]`, `[-1::-1] = [3,2,1]`,
and the empty range `[-1:-1:-1]` yields the empty List, not an error. -/
theorem list_slice_total_and_laws :
    (∀ (xs : List Object) (sl : Slice),
      objGetSlice (Object.list xs) sl = .ok (.list (sliceRead xs sl))) ∧
    (∀ (xs : List Object) (sl : Slice) (y : Object), y ∈ sliceRead xs sl → y ∈ xs) ∧
    objGetSlice (.list [.int 1, .int 2, .int 3]) ⟨none, some (-1), none⟩
      = .ok (.list [.int 1, .int 2]) ∧
    objGetSlice (.list [.int 1, .int 2, .int 3]) ⟨some (-1), none, none⟩
      = .ok (.list [.int 3]) ∧
    objGetSlice (.list [.int 1, .int 2, .int 3]) ⟨some (-1), none, some (-1)⟩
      = .ok (.list [.int 3, .int 2, .int 1]) ∧
    objGetSlice (.list [.int 1, .int 2, .int 3]) ⟨some (-1), some (-1), some (-1)⟩
      = .ok (.list []) :=
  ⟨fun _ _ => rfl, fun _ _ _ h => sliceRead_mem h, rfl, rfl, rfl, rfl⟩

/-- Witness for C8: the membership component applied at a concrete input
— `3` is among the elements selected by `[-1::-1]` on `[1,2,3]`, hence
an element of `[1,2,3]`. -/
theorem list_slice_total_and_laws_witness :
    Object.int 3 ∈ [Object.int 1, Object.int 2, Object.int 3] :=
  list_slice_total_and_laws.2.1 [.int 1, .int 2, .int 3]
    ⟨some (-1), none, some (-1)⟩ (Object.int 3)
    (by show Object.int 3 ∈ [Object.int 3, Object.int 2, Object.int 1]; simp)

/-! ## Arithmetic (§4.1: defined on Int/Float with standard promotion) -/

/-- Integer power as the missing C++ core's `**` on two Ints; the spec
(§4.1) gives `Int∘Int→Int`. A negative exponent is outside the claims
and the spec's wording; the model returns `0` there. -/
def ipow (a b : Int) : Int := if 0 ≤ b then a ^ b.toNat else 0

/-- Modelled from the spec: §4.1 `+` of the missing C++ core — defined
only for Int/Float with standard promotion, `TypeError` otherwise. -/
def obj_add : Object → Object → Except NodelError Object
  | .int a, .int b => .ok (.int (a + b))
  | .int a, .float b => .ok (.float (a + b))
  | .float a, .int b => .ok (.float (a + b))
  | .float a, .float b => .ok (.float (a + b))
  | _, _ => .error .typeError

/-- Modelled from the spec: §4.1 `-` (see `obj_add`). -/
def obj_sub : Object → Object → Except NodelError Object
  | .int a, .int b => .ok (.int (a - b))
  | .int a, .float b => .ok (.float (a - b))
  | .float a, .int b => .ok (.float (a - b))
  | .float a, .float b => .ok (.float (a - b))
  | _, _ => .error .typeError

/-- Modelled from the spec: §4.1 `*` (see `obj_add`). -/
def obj_mul : Object → Object → Except NodelError Object
  | .int a, .int b => .ok (.int (a * b))
  | .int a, .float b => .ok (.float (a * b))
  | .float a, .int b => .ok (.float (a * b))
  | .float a, .float b => .ok (.float (a * b))
  | _, _ => .error .typeError

/-- Modelled from the spec: §4.1 true division `/` of the missing C++
core — `Int∘Int` promotes to Float; division by zero fails. -/
def obj_truediv : Object → Object → Except NodelError Object
  | .int a, .int b =>
    if b = 0 then .error .zeroDivisionError else .ok (.float ((a : ℚ) / (b : ℚ)))
  | .int a, .float b =>
    if b = 0 then .error .zeroDivisionError else .ok (.float (a / b))
  | .float a, .int b =>
    if b = 0 then .error .zeroDivisionError else .ok (.float (a / (b : ℚ)))
  | .float a, .float b =>
    if b = 0 then .error .zeroDivisionError else .ok (.float (a / b))
  | _, _ => .error .typeError

/-- Modelled from the spec: §4.1 floor division `//` of the missing C++
core — `Int∘Int→Int` with floored quotient (Python semantics). -/
def obj_floordiv : Object → Object → Except NodelError Object
  | .int a, .int b =>
    if b = 0 then .error .zeroDivisionError else .ok (.int (Int.fdiv a b))
  | .int a, .float b =>
    if b = 0 then .error .zeroDivisionError else .ok (.float ⌊(a : ℚ) / b⌋)
  | .float a, .int b =>
    if b = 0 then .error .zeroDivisionError else .ok (.float ⌊a / (b : ℚ)⌋)
  | .float a, .float b =>
    if b = 0 then .error .zeroDivisionError else .ok (.float ⌊a / b⌋)
  | _, _ => .error .typeError

/-- Modelled from the spec: §4.1 modulus `%` of the missing C++ core —
`Int∘Int→Int` with the remainder of floored division (Python semantics,
sign follows the divisor). -/
def obj_mod : Object → Object → Except NodelError Object
  | .int a, .int b =>
    if b = 0 then .error .zeroDivisionError else .ok (.int (Int.fmod a b))
  | .int a, .float b =>
    if b = 0 then .error .zeroDivisionError else .ok (.float ((a : ℚ) - b * ⌊(a : ℚ) / b⌋))
  | .float a, .int b =>
    if b = 0 then .error .zeroDivisionError else .ok (.float (a - b * ⌊a / (b : ℚ)⌋))
  | .float a, .float b =>
    if b = 0 then .error .zeroDivisionError else .ok (.float (a - b * ⌊a / b⌋))
  | _, _ => .error .typeError

/-- Modelled from the spec: §4.1 power `**` of the missing C++ core —
`Int∘Int→Int`; a Float base with an Int exponent stays Float. A Float
exponent is outside the rational model of floats and outside the claims. -/
def obj_pow : Object → Object → Except NodelError Object
  | .int a, .int b => .ok (.int (ipow a b))
  | .float a, .int b =>
    .ok (.float (if 0 ≤ b then a ^ b.toNat else (a ^ (-b).toNat)⁻¹))
  | _, _ => .error .typeError

/-- C5: for Int Objects `x`, `y` with `y ≠ 0`, the operators `+ - * // %
**` produce Int results with the standard integer values (floored
division and remainder as in the host language; `**` for a nonnegative
exponent), while true division `/` produces a Float result equal to the
native true-division quotient — so after `x /= y` the variant is Float
and after `x //= y` it is Int (the in-place forms compute the same
results and rebind). -/
theorem int_arith_promotion (x y : Int) (h : y ≠ 0) :
    obj_add (.int x) (.int y) = .ok (.int (x + y)) ∧
    obj_sub (.int x) (.int y) = .ok (.int (x - y)) ∧
    obj_mul (.int x) (.int y) = .ok (.int (x * y)) ∧
    obj_floordiv (.int x) (.int y) = .ok (.int (Int.fdiv x y)) ∧
    obj_mod (.int x) (.int y) = .ok (.int (Int.fmod x y)) ∧
    (0 ≤ y → obj_pow (.int x) (.int y) = .ok (.int (x ^ y.toNat))) ∧
    obj_truediv (.int x) (.int y) = .ok (.float ((x : ℚ) / (y : ℚ))) ∧
    (obj_truediv (.int x) (.int y)).map is_float = .ok true ∧
    (obj_floordiv (.int x) (.int y)).map is_int = .ok true := by
  refine ⟨rfl, rfl, rfl, by simp [obj_floordiv, h], by simp [obj_mod, h],
    fun hy => by simp [obj_pow, ipow, hy], by simp [obj_truediv, h],
    by simp [obj_truediv, h, Except.map, is_float],
    by simp [obj_floordiv, h, Except.map, is_int]⟩

/-- Witness for C5: the arithmetic laws at `x = 7`, `y = 3`. -/
theorem int_arith_promotion_witness :
    (3 : Int) ≠ 0 ∧
    (obj_add (.int 7) (.int 3) = .ok (.int (7 + 3)) ∧
    obj_sub (.int 7) (.int 3) = .ok (.int (7 - 3)) ∧
    obj_mul (.int 7) (.int 3) = .ok (.int (7 * 3)) ∧
    obj_floordiv (.int 7) (.int 3) = .ok (.int (Int.fdiv 7 3)) ∧
    obj_mod (.int 7) (.int 3) = .ok (.int (Int.fmod 7 3)) ∧
    ((0 : Int) ≤ 3 → obj_pow (.int 7) (.int 3) = .ok (.int (7 ^ (3 : Int).toNat))) ∧
    obj_truediv (.int 7) (.int 3) = .ok (.float ((7 : Int) / ((3 : Int) : ℚ))) ∧
    (obj_truediv (.int 7) (.int 3)).map is_float = .ok true ∧
    (obj_floordiv (.int 7) (.int 3)).map is_int = .ok true) :=
  ⟨by decide, int_arith_promotion 7 3 (by decide)⟩

/-! ## Subscripting and native conversion (§4.1) -/

/-- A host-language (Python) value, as handed to the binding layer:
scalars, containers, or an arbitrary host object kept opaque (`foreign`,
represented by its identity token). -/
inductive PyValue where
  | none
  | bool (b : Bool)
  | int (i : Int)
  | float (q : ℚ)
  | str (s : String)
  | list (xs : List PyValue)
  | dict (es : List (String × PyValue))
  | foreign (id : Nat)

/-- Modelled from the spec: §4.1 `native(obj)` of the missing C++ core —
convert an Object back to a host value; an opaque payload converts to
the identical host object (same identity token); a container has no
scalar native counterpart and fails with `TypeConversionError`. -/
def obj_native : Object → Except NodelError PyValue
  | .nil => .ok .none
  | .bool b => .ok (.bool b)
  | .int i => .ok (.int i)
  | .float q => .ok (.float q)
  | .str s => .ok (.str s)
  | .native t => .ok (.foreign t)
  | .list _ => .error .typeConversionError
  | .map _ => .error .typeConversionError

/-- A subscript as received from the host language: a native integer, a
native string, or a wrapped (already-converted) Object. -/
inductive PyIndex where
  | pint (i : Int)
  | pstr (s : String)
  | pobj (o : Object)

/-- Modelled from the spec: §4.1 subscript read of the missing C++ core
— a List is indexed by a native integer (negative indices count from
the end); a Map is looked up by a native key; a wrapped Object used as
a Map key is not unwrapped to its native value, so such a lookup fails
(the behaviour the test-suite marks as an expected failure). -/
def objSubscript (o : Object) (ix : PyIndex) : Except NodelError Object :=
  match o, ix with
  | .list xs, .pint i =>
    let j := if i < 0 then i + xs.length else i
    if j < 0 then .error .indexError
    else
      match xs[j.toNat]? with
      | some v => .ok v
      | Option.none => .error .indexError
  | .map es, .pstr k =>
    match es.lookup k with
    | some v => .ok v
    | Option.none => .error .keyNotFound
  | .map _, .pint _ => .error .keyNotFound
  | .map _, .pobj _ => .error .typeError
  | _, _ => .error .typeError

/-- C9: on the Map built from `{x: 1, y: 2, z: 3}`, subscripting with the
wrapped key `Object("z")` does not return the value stored under the
native key — it fails — while the native key `"z"` returns `3`. -/
theorem map_wrapped_key_lookup_fails :
    objSubscript (.map [("x", .int 1), ("y", .int 2), ("z", .int 3)]) (.pobj (.str "z"))
      = .error .typeError ∧
    objSubscript (.map [("x", .int 1), ("y", .int 2), ("z", .int 3)]) (.pstr "z")
      = .ok (.int 3) :=
  ⟨rfl, rfl⟩

/-- C10: an opaque payload stored in a List or Map slot reads back as the
identical payload (the same identity token `t`, not a copy), for both
slots of a List holding it twice, for a Map slot, and through the
`native` conversion back to the host object. -/
theorem opaque_payload_identity (t : Nat) :
    objSubscript (.list [.native t, .native t]) (.pint 0) = .ok (.native t) ∧
    objSubscript (.list [.native t, .native t]) (.pint 1) = .ok (.native t) ∧
    objSubscript (.map [("x", .native t)]) (.pstr "x") = .ok (.native t) ∧
    obj_native (.native t) = .ok (.foreign t) :=
  ⟨rfl, rfl, rfl, rfl⟩

/-! ## Binding descriptors (§4.4 `bind`, §6 external interfaces) -/

/-- Permission mode of a binding: read-only or read-write. -/
inductive Perm where
  | r
  | rw
deriving DecidableEq

/-- A parsed binding descriptor: the resolved location and the
permission mode (`r` is the default). -/
structure Descriptor where
  path : String
  perm : Perm
deriving DecidableEq

/-- Split a character list at every occurrence of `c` (the pieces do not
contain `c`; `n` separators yield `n + 1` pieces). -/
def splitOnChar (c : Char) : List Char → List (List Char)
  | [] => [[]]
  | x :: rest =>
    let r := splitOnChar c rest
    if x == c then [] :: r
    else
      match r with
      | [] => [[x]]
      | g :: gs => (x :: g) :: gs

/-- Whether the first list is an initial segment of the second. -/
def startsWithChars : List Char → List Char → Bool
  | [], _ => true
  | _ :: _, [] => false
  | p :: ps, x :: xs => p == x && startsWithChars ps xs

/-- Whether `s` ends with the suffix `suf`. -/
def endsWithStr (suf s : String) : Bool :=
  startsWithChars suf.data.reverse s.data.reverse

/-- The `key=value` pairs of a query string, split at `&`; a piece
without exactly one `=` contributes nothing. -/
def queryParams (q : List Char) : List (String × String) :=
  (splitOnChar '&' q).filterMap fun kv =>
    match splitOnChar '=' kv with
    | [k, v] => some (String.mk k, String.mk v)
    | _ => Option.none

/-- Modelled from the spec: §4.4/§6 `bind`-descriptor parsing of the
missing C++ core — a URL `file://[authority-path]?path=..&perm=..`; the
`path` parameter is required; a nonempty authority/root path together
with the `path` parameter collides with the filesystem root and is
rejected with `BindingError` rather than silently narrowed. -/
def bindParse (url : String) : Except NodelError Descriptor :=
  if startsWithChars "file://".data url.data then
    match splitOnChar '?' (url.data.drop 7) with
    | [pre, query] =>
      let params := queryParams query
      match params.lookup "path" with
      | Option.none => .error .bindingError
      | some p =>
        if pre.isEmpty then
          .ok ⟨p, if params.lookup "perm" == some "rw" then .rw else .r⟩
        else .error .bindingError
    | _ => .error .bindingError
  else .error .bindingError

/-- C6: binding the descriptor `file:///?path=.` — whose authority/root
path collides with the root of the filesystem addressing scheme — fails
with `BindingError` and returns no bound Object, while the same
descriptor without the root path (`file://?path=.`) parses. -/
theorem bind_root_collision_fails :
    bindParse "file:///?path=." = .error .bindingError ∧
    bindParse "file://?path=." = .ok ⟨".", .r⟩ :=
  ⟨rfl, rfl⟩

/-! ## Filesystem data source (§4.5, §4.4) -/

/-- The content of a file in the backing store: raw text, or the decoded
form of a structured-extension file. The text codec is an external
collaborator of the core (spec §1, §6) and round-trips structured values,
so structured content is stored in decoded form. -/
inductive FileContent where
  | text (s : String)
  | structured (o : Object)

/-- Modelled from the spec: §4.5/§6 persisted layout of the missing
filesystem backend — a directory is an ordered list of named entries;
a file holds a `FileContent`. -/
inductive FsEntry where
  | file (c : FileContent)
  | dir (entries : List (String × FsEntry))

/-- The Object a file's content materializes to: raw text loads as a
String, a structured-extension file loads as its decoded tree. -/
def contentObj : FileContent → Object
  | .text s => .str s
  | .structured o => o

mutual

/-- Modelled from the spec: §4.5 loading of the missing filesystem
backend — a directory maps to a Map whose keys are the entry names, a
file maps to its content's Object. -/
def loadTree : FsEntry → Object
  | .file c => contentObj c
  | .dir es => .map (loadEntries es)

/-- Load every entry of a directory, preserving names and order. -/
def loadEntries : List (String × FsEntry) → List (String × Object)
  | [] => []
  | (k, e) :: rest => (k, loadTree e) :: loadEntries rest

end

mutual

/-- Whether an Object is expressible by the external text codec (spec
§6): built of the scalar variants, Lists and Maps — no opaque payload. -/
def jsonable : Object → Bool
  | .nil => true
  | .bool _ => true
  | .int _ => true
  | .float _ => true
  | .str _ => true
  | .list xs => jsonableList xs
  | .map es => jsonableEntries es
  | .native _ => false

/-- `jsonable` for every element of a List payload. -/
def jsonableList : List Object → Bool
  | [] => true
  | x :: rest => jsonable x && jsonableList rest

/-- `jsonable` for every value of a Map payload. -/
def jsonableEntries : List (String × Object) → Bool
  | [] => true
  | (_, v) :: rest => jsonable v && jsonableEntries rest

end

mutual

/-- Whether an Object is persistable as a directory tree (spec §4.5): a
Map each of whose entries is savable. -/
def savable : Object → Bool
  | .map es => savableEntries es
  | _ => false

/-- `savableEntry` for every entry of a directory Map. -/
def savableEntries : List (String × Object) → Bool
  | [] => true
  | (k, v) :: rest => savableEntry k v && savableEntries rest

/-- Whether one Map entry is persistable: a structured-extension name
takes any codec-expressible value (written as one file); otherwise a Map
value becomes a subdirectory and a String value becomes a text file. -/
def savableEntry (k : String) (v : Object) : Bool :=
  if endsWithStr ".json" k then jsonable v
  else
    match v with
    | .str _ => true
    | .map es => savableEntries es
    | _ => false

end

mutual

/-- Modelled from the spec: §4.5/§4.4 `save` of the missing filesystem
backend — persist an Object as a backing-store entry: a Map becomes a
directory (parents before children); anything else at the root is not
persistable as a directory tree. -/
def saveTree : Object → Except NodelError FsEntry
  | .map es => Except.map FsEntry.dir (saveEntries es)
  | _ => .error .typeError

/-- Persist every entry of a directory Map, preserving names and order. -/
def saveEntries : List (String × Object) → Except NodelError (List (String × FsEntry))
  | [] => .ok []
  | (k, v) :: rest =>
    match saveEntry k v, saveEntries rest with
    | .ok e, .ok fs => .ok ((k, e) :: fs)
    | .error err, _ => .error err
    | _, .error err => .error err

/-- Persist one Map entry: a structured-extension (`.json`) name writes
the value through the text codec into one file; otherwise a Map value
becomes a subdirectory and a String value a raw text file. -/
def saveEntry (k : String) (v : Object) : Except NodelError FsEntry :=
  if endsWithStr ".json" k then
    if jsonable v then .ok (.file (.structured v)) else .error .typeError
  else
    match v with
    | .str s => .ok (.file (.text s))
    | .map es => Except.map FsEntry.dir (saveEntries es)
    | _ => .error .typeError

end

mutual

/-- Saving a savable Object and loading the result reproduces it. -/
theorem load_save_roundtrip : (o : Object) → savable o = true →
    ∃ e, saveTree o = .ok e ∧ loadTree e = o
  | .map es, h => by
    obtain ⟨fs, h1, h2⟩ := load_saveEntries_roundtrip es (by simpa [savable] using h)
    exact ⟨.dir fs, by simp [saveTree, h1, Except.map], by simp [loadTree, h2]⟩

/-- Saving the entries of a savable directory Map and loading them back
reproduces them, names and order included. -/
theorem load_saveEntries_roundtrip : (es : List (String × Object)) →
    savableEntries es = true →
    ∃ fs, saveEntries es = .ok fs ∧ loadEntries fs = es
  | [], _ => ⟨[], rfl, rfl⟩
  | (k, v) :: rest, h => by
    rw [savableEntries, Bool.and_eq_true] at h
    obtain ⟨e, he1, he2⟩ := load_saveEntry_roundtrip k v h.1
    obtain ⟨fs, hf1, hf2⟩ := load_saveEntries_roundtrip rest h.2
    exact ⟨(k, e) :: fs, by simp [saveEntries, he1, hf1], by simp [loadEntries, he2, hf2]⟩

/-- Saving one savable Map entry and loading it back reproduces its
value: a structured-extension file reads back its decoded tree, a text
file its String, a subdirectory its Map. -/
theorem load_saveEntry_roundtrip : (k : String) → (v : Object) →
    savableEntry k v = true →
    ∃ e, saveEntry k v = .ok e ∧ loadTree e = v
  | k, v, h => by
    rw [savableEntry.eq_def] at h
    by_cases hj : endsWithStr ".json" k = true
    · rw [if_pos hj] at h
      exact ⟨.file (.structured v), by rw [saveEntry.eq_def, if_pos hj, if_pos h], rfl⟩
    · rw [if_neg hj] at h
      cases v with
      | str s => exact ⟨.file (.text s), by rw [saveEntry.eq_def, if_neg hj], rfl⟩
      | map es =>
        obtain ⟨fs, h1, h2⟩ := load_saveEntries_roundtrip es h
        exact ⟨.dir fs,
          by
            rw [saveEntry.eq_def, if_neg hj]
            change Except.map FsEntry.dir (saveEntries es) = _
            rw [h1]
            rfl,
          by simp [loadTree, h2]⟩
      | nil => exact absurd h (by simp)
      | bool b => exact absurd h (by simp)
      | int i => exact absurd h (by simp)
      | float q => exact absurd h (by simp)
      | list xs => exact absurd h (by simp)
      | native t => exact absurd h (by simp)

end

/-- Modelled from the spec: §4.4 per-binding state of the missing C++
core — the backing store (a name-indexed root of entries), the resolved
location, the permission mode, and the in-memory materialization
(`Option.none` is the Unloaded state). -/
structure FsSource where
  fs : List (String × FsEntry)
  path : String
  perm : Perm
  mem : Option Object

/-- Modelled from the spec: §4.4 `bind` — parse the descriptor and
produce an Unloaded bound source; `bind` performs no eager validation of
the location's existence in the backing store. -/
def bindFs (fs : List (String × FsEntry)) (url : String) : Except NodelError FsSource :=
  Except.map (fun d => ⟨fs, d.path, d.perm, Option.none⟩) (bindParse url)

/-- Modelled from the spec: §4.4 load-on-demand — a loaded
materialization is returned as is; an Unloaded source reads the backing
store at its location, failing with `NotFoundError` when nothing exists
there. -/
def FsSource.load (s : FsSource) : Except NodelError Object :=
  match s.mem with
  | some o => .ok o
  | Option.none =>
    match s.fs.lookup s.path with
    | some e => .ok (loadTree e)
    | Option.none => .error .notFoundError

/-- Modelled from the spec: §4.3 key iteration on a bound container —
the first real access: it materializes the container and yields its
keys. -/
def FsSource.iterKeys (s : FsSource) : Except NodelError (List String) :=
  match s.load with
  | .ok (.map es) => .ok (es.map Prod.fst)
  | .ok _ => .error .typeError
  | .error e => .error e

/-- Membership of a key in the bound container (the host `in` operator),
materializing on demand. -/
def FsSource.hasKey (k : String) (s : FsSource) : Except NodelError Bool :=
  match s.load with
  | .ok (.map es) => .ok (es.any (fun kv => kv.1 == k))
  | .ok _ => .error .typeError
  | .error e => .error e

/-- Modelled from the spec: §4.4 `clear` — empty the container in memory
only; the backing store is untouched until `save`. -/
def FsSource.clear (s : FsSource) : FsSource := { s with mem := some (.map []) }

/-- Modelled from the spec: §4.4 `reset` — discard the in-memory
materialization (including unsaved edits), returning to Unloaded, so the
next access re-reads from the backing store. -/
def FsSource.reset (s : FsSource) : FsSource := { s with mem := Option.none }

/-- Modelled from the spec: §4.4 `save` — a no-op when nothing is
materialized; fails with `PermissionError` on a read-only binding;
otherwise persists the materialization into the backing store at the
bound location. -/
def FsSource.save (s : FsSource) : Except NodelError FsSource :=
  match s.mem with
  | Option.none => .ok s
  | some o =>
    if s.perm = .r then .error .permissionError
    else Except.map (fun e => { s with fs := (s.path, e) :: s.fs }) (saveTree o)

/-- Keys survive loading a directory's entries. -/
theorem loadEntries_any_key (es : List (String × FsEntry)) (k : String) :
    (loadEntries es).any (fun kv => kv.1 == k) = es.any (fun kv => kv.1 == k) := by
  induction es with
  | nil => rfl
  | cons kv rest ih =>
    obtain ⟨k', e⟩ := kv
    simp [loadEntries, ih]

/-- C1: saving a savable tree through a read-write binding and re-binding
the same location read-only yields an equal tree: the re-bound source
loads exactly the Object that was saved (every written directory reads
back as a Map, every written file value reads back equal). -/
theorem binding_roundtrip (fs₀ : List (String × FsEntry)) (p : String) (o : Object)
    (h : savable o = true) :
    ∃ s', FsSource.save ⟨fs₀, p, .rw, some o⟩ = .ok s' ∧
      FsSource.load ⟨s'.fs, p, .r, Option.none⟩ = .ok o := by
  obtain ⟨e, h1, h2⟩ := load_save_roundtrip o h
  refine ⟨⟨(p, e) :: fs₀, p, .rw, some o⟩, ?_, ?_⟩
  · simp [FsSource.save, h1, Except.map]
  · simp [FsSource.load, List.lookup, h2]

/-- The directory tree written by the deep-save test: `tmp/culinary`
holds a structured `tea.json` and a plain `vegetable.txt`. -/
def teaTree : Object :=
  .map [("tmp", .map [("culinary", .map [
    ("tea.json", .map [("country", .str "India"), ("region", .str "Assam"),
                       ("designation", .str "FTGFOP")]),
    ("vegetable.txt", .str "beets")])])]

/-- Witness for C1: the binding round trip at the deep-save test's tree,
written into an empty backing store. -/
theorem binding_roundtrip_witness :
    savable teaTree = true ∧
    ∃ s', FsSource.save ⟨[], "wd", .rw, some teaTree⟩ = .ok s' ∧
      FsSource.load ⟨s'.fs, "wd", .r, Option.none⟩ = .ok teaTree :=
  ⟨rfl, binding_roundtrip [] "wd" teaTree rfl⟩

/-- C2: on a source bound read-write over a backing directory that holds
key `k`, the key is present at first access, absent after `clear` (which
empties only the in-memory container), and present again after `reset`
(which discards the unsaved edit so the next access re-reads the
backing store; no `save` happened in between). -/
theorem clear_reset_restores (fs : List (String × FsEntry)) (p k : String)
    (es : List (String × FsEntry))
    (hfind : fs.lookup p = some (.dir es))
    (hk : es.any (fun kv => kv.1 == k) = true) :
    FsSource.hasKey k ⟨fs, p, .rw, Option.none⟩ = .ok true ∧
    FsSource.hasKey k (FsSource.clear ⟨fs, p, .rw, Option.none⟩) = .ok false ∧
    FsSource.hasKey k (FsSource.reset (FsSource.clear ⟨fs, p, .rw, Option.none⟩))
      = .ok true := by
  refine ⟨?_, ?_, ?_⟩
  · simp [FsSource.hasKey, FsSource.load, hfind, loadTree, loadEntries_any_key, hk]
  · simp [FsSource.hasKey, FsSource.clear, FsSource.load]
  · simp [FsSource.hasKey, FsSource.reset, FsSource.clear, FsSource.load, hfind,
      loadTree, loadEntries_any_key, hk]

/-- Witness for C2: clear-then-reset over a backing directory holding
`test_module.py`. -/
theorem clear_reset_restores_witness :
    ([("d", FsEntry.dir [("test_module.py", FsEntry.file (.text "pass"))])].lookup "d"
      = some (FsEntry.dir [("test_module.py", FsEntry.file (.text "pass"))])) ∧
    ([("test_module.py", FsEntry.file (FileContent.text "pass"))].any
      (fun kv => kv.1 == "test_module.py") = true) ∧
    (FsSource.hasKey "test_module.py"
      ⟨[("d", FsEntry.dir [("test_module.py", FsEntry.file (.text "pass"))])],
        "d", .rw, Option.none⟩ = .ok true ∧
    FsSource.hasKey "test_module.py"
      (FsSource.clear ⟨[("d", FsEntry.dir [("test_module.py", FsEntry.file (.text "pass"))])],
        "d", .rw, Option.none⟩) = .ok false ∧
    FsSource.hasKey "test_module.py"
      (FsSource.reset (FsSource.clear
        ⟨[("d", FsEntry.dir [("test_module.py", FsEntry.file (.text "pass"))])],
          "d", .rw, Option.none⟩)) = .ok true) :=
  ⟨rfl, rfl,
    clear_reset_restores [("d", .dir [("test_module.py", .file (.text "pass"))])]
      "d" "test_module.py" [("test_module.py", .file (.text "pass"))] rfl rfl⟩

/-- C7: binding a well-formed descriptor whose location does not exist in
the backing store succeeds without raising (no eager validation), and
the first real access — iterating the keys — fails with
`NotFoundError`. -/
theorem bind_nonexistent_lazy (fs : List (String × FsEntry))
    (h : fs.lookup "FDKJSKJSD0023998378613984" = Option.none) :
    bindFs fs "file://?path=FDKJSKJSD0023998378613984"
      = .ok ⟨fs, "FDKJSKJSD0023998378613984", .r, Option.none⟩ ∧
    FsSource.iterKeys ⟨fs, "FDKJSKJSD0023998378613984", .r, Option.none⟩
      = .error .notFoundError := by
  constructor
  · rfl
  · simp [FsSource.iterKeys, FsSource.load, h]

/-- Witness for C7: binding the nonexistent location over an empty
backing store. -/
theorem bind_nonexistent_lazy_witness :
    (([] : List (String × FsEntry)).lookup "FDKJSKJSD0023998378613984" = Option.none) ∧
    (bindFs [] "file://?path=FDKJSKJSD0023998378613984"
      = .ok ⟨[], "FDKJSKJSD0023998378613984", .r, Option.none⟩ ∧
    FsSource.iterKeys ⟨[], "FDKJSKJSD0023998378613984", .r, Option.none⟩
      = .error .notFoundError) :=
  ⟨rfl, bind_nonexistent_lazy [] rfl⟩

end Nodel
